import Mathlib

/-!
Verification of the hpc_status repository's normalization and
collection-state management core.

Python strings are embedded as lists of characters (`Str`); Python's
dynamically typed values as the inductive `PyVal`; machine floats that
only ever hold small decimal fractions are embedded as rationals.
Every definition is translated from the repository's source files
(`src/data/normalization.py`, `src/data/models.py`,
`src/collectors/hpcmp.py`, `src/insights/recommendations.py`,
`src/server/workers.py`).
-/

set_option maxRecDepth 4000

abbrev Str := List Char

/-- Python whitespace as used by `str.strip()` (space, tab, LF, CR, VT, FF). -/
def isPySpace (c : Char) : Bool :=
  c = ' ' || c = '\t' || c = '\n' || c = '\r' || c = '\x0b' || c = '\x0c'

/-- Python `str.strip()`: remove leading and trailing whitespace. -/
def pyStrip (s : Str) : Str :=
  (((s.dropWhile isPySpace).reverse).dropWhile isPySpace).reverse

/-- Python `str.lower()` (ASCII range, which is all the source ever feeds it). -/
def pyLower (s : Str) : Str := s.map Char.toLower

/-- Python `str.upper()` (ASCII range). -/
def pyUpper (s : Str) : Str := s.map Char.toUpper

/-- Numeric value of a digit string (most significant first). -/
def digitsToNat (l : Str) : Nat := l.foldl (fun a c => a * 10 + (c.toNat - 48)) 0

/-- Python `int(s)` on a string: strip whitespace, optional sign, then a
non-empty run of decimal digits; anything else raises `ValueError`,
embedded as `none`. -/
def pyIntParse (s : Str) : Option Int :=
  match pyStrip s with
  | [] => none
  | c :: rest =>
    if c = '-' then
      if rest ≠ [] ∧ rest.all Char.isDigit then some (-(digitsToNat rest : Int)) else none
    else if c = '+' then
      if rest ≠ [] ∧ rest.all Char.isDigit then some (digitsToNat rest : Int) else none
    else
      if (c :: rest).all Char.isDigit then some (digitsToNat (c :: rest) : Int) else none

/-- Python `s.split(sep)` for a one-character separator: auxiliary, carrying
the (reversed) current field. -/
def splitChAux (sep : Char) : Str → Str → List Str
  | [], acc => [acc.reverse]
  | c :: rest, acc =>
    if c = sep then acc.reverse :: splitChAux sep rest []
    else splitChAux sep rest (c :: acc)

/-- Python `s.split(":")`. -/
def splitColon (s : Str) : List Str := splitChAux ':' s []

/-- Python `map(int, parts)` materialized under a `try`: the first
`ValueError` aborts the whole conversion. -/
def pyIntList : List Str → Option (List Int)
  | [] => some []
  | p :: rest =>
    match pyIntParse p, pyIntList rest with
    | some v, some vs => some (v :: vs)
    | _, _ => none

/-- Python `needle in hay` (substring containment). -/
def containsSub (h : Str) (n : Str) : Bool :=
  match h with
  | [] => n.isEmpty
  | _ :: t => n.isPrefixOf h || containsSub t n

/-- Decimal rendering of an integer, as Python `str(n)` produces. -/
def intToStr (n : Int) : Str := (toString n).toList

/-- Embeds `re.match(r"(\d+)-(\d+):(\d+):(\d+)", s)` from `parse_walltime`:
an anchored-at-start, unanchored-at-end match of the Slurm `D-HH:MM:SS`
form.  Greedy `\d+` against a literal delimiter is maximal munch. -/
def slurmDashMatch (s : Str) : Option (Nat × Nat × Nat × Nat) :=
  let d1 := s.takeWhile Char.isDigit
  if d1 = [] then none else
  match s.dropWhile Char.isDigit with
  | c1 :: r1 =>
    if c1 = '-' then
      let d2 := r1.takeWhile Char.isDigit
      if d2 = [] then none else
      match r1.dropWhile Char.isDigit with
      | c2 :: r2 =>
        if c2 = ':' then
          let d3 := r2.takeWhile Char.isDigit
          if d3 = [] then none else
          match r2.dropWhile Char.isDigit with
          | c3 :: r3 =>
            if c3 = ':' then
              let d4 := r3.takeWhile Char.isDigit
              if d4 = [] then none
              else some (digitsToNat d1, digitsToNat d2, digitsToNat d3, digitsToNat d4)
            else none
          | [] => none
        else none
      | [] => none
    else none
  | [] => none

/-- Embeds `_format_duration` from `src/data/normalization.py`: human-readable
duration.  Python `//` and `%` are floor division and floor modulus. -/
def formatDuration (seconds : Int) : Str :=
  if seconds < 60 then intToStr seconds ++ (" seconds").toList
  else
    let minutes := Int.fdiv seconds 60
    if minutes < 60 then
      intToStr minutes ++ (" minute").toList ++ (if minutes ≠ 1 then ("s").toList else [])
    else
      let hours := Int.fdiv minutes 60
      if hours < 24 then
        intToStr hours ++ (" hour").toList ++ (if hours ≠ 1 then ("s").toList else [])
      else
        let days := Int.fdiv hours 24
        let remaining_hours := Int.fmod hours 24
        if remaining_hours = 0 then
          intToStr days ++ (" day").toList ++ (if days ≠ 1 then ("s").toList else [])
        else
          intToStr days ++ (" day").toList ++ (if days ≠ 1 then ("s").toList else [])
            ++ (", ").toList ++ intToStr remaining_hours ++ (" hour").toList
            ++ (if remaining_hours ≠ 1 then ("s").toList else [])

/-- The sentinel strings recognized by `parse_walltime` after uppercasing. -/
def walltimeSentinels : List Str :=
  [("INFINITE").toList, ("UNLIMITED").toList, ("NONE").toList, ("N/A").toList]

/-- Embeds `parse_walltime` from `src/data/normalization.py`: walltime string to
`(seconds or None, display string)`. -/
def parse_walltime (walltime : Str) : Option Int × Str :=
  if walltime = [] ∨ walltime = ("-").toList then (none, ("unlimited").toList)
  else
    let w := pyStrip walltime
    if pyUpper w ∈ walltimeSentinels then (none, ("unlimited").toList)
    else
      match pyIntParse w with
      | some minutes =>
        let seconds := minutes * 60
        (some seconds, formatDuration seconds)
      | none =>
        match slurmDashMatch w with
        | some (d, h, m, s) =>
          let t : Int := (d : Int) * 86400 + (h : Int) * 3600 + (m : Int) * 60 + (s : Int)
          (some t, formatDuration t)
        | none =>
          let parts := splitColon w
          if parts.length = 4 then
            match pyIntList parts with
            | some [d, h, m, s] =>
              let t := d * 86400 + h * 3600 + m * 60 + s
              (some t, formatDuration t)
            | _ => (none, w)
          else if parts.length = 3 then
            match pyIntList parts with
            | some [h, m, s] =>
              let t := h * 3600 + m * 60 + s
              (some t, formatDuration t)
            | _ => (none, w)
          else if parts.length = 2 then
            match pyIntList parts with
            | some [h, m] =>
              let t := h * 3600 + m * 60
              (some t, formatDuration t)
            | _ => (none, w)
          else (none, w)

/-- Embeds `QueueInfo._parse_walltime` from `src/data/models.py`: only the 3-part
`HH:MM:SS` and 4-part `DD:HH:MM:SS` colon forms; everything else (including
a `ValueError` from `int`) yields `None`. -/
def queueParseWalltime (walltime : Str) : Option Int :=
  let parts := splitColon walltime
  if parts.length = 3 then
    match pyIntList parts with
    | some [h, m, s] => some (h * 3600 + m * 60 + s)
    | _ => none
  else if parts.length = 4 then
    match pyIntList parts with
    | some [d, h, m, s] => some (d * 86400 + h * 3600 + m * 60 + s)
    | _ => none
  else none

/-- Embeds `QueueInfo.__post_init__` from `src/data/models.py`, restricted to the
walltime field: if `max_walltime_seconds is None and self.max_walltime`
(non-empty string is truthy), parse it with `QueueInfo._parse_walltime`. -/
def queuePostInitSeconds (given : Option Int) (max_walltime : Str) : Option Int :=
  if given = none ∧ max_walltime ≠ [] then queueParseWalltime max_walltime else given

/-! ## Node-state normalization (`src/data/normalization.py`) -/

/-- Embeds `SchedulerType` from `src/data/normalization.py`. -/
inductive SchedulerType where
  | PBS | SLURM | LSF | SGE | UNKNOWN
deriving DecidableEq

/-- Embeds `PBS_NODE_STATE_MAP` from `src/data/normalization.py`. -/
def PBS_NODE_STATE_MAP : List (Str × Str) :=
  [(("free").toList, ("IDLE").toList),
   (("job-exclusive").toList, ("ALLOCATED").toList),
   (("job-busy").toList, ("ALLOCATED").toList),
   (("busy").toList, ("ALLOCATED").toList),
   (("state-unknown").toList, ("UNKNOWN").toList),
   (("offline").toList, ("DOWN").toList),
   (("down").toList, ("DOWN").toList),
   (("resv-exclusive").toList, ("RESERVED").toList),
   (("maintenance").toList, ("MAINTENANCE").toList),
   (("stale").toList, ("DOWN").toList)]

/-- Embeds `SLURM_NODE_STATE_MAP` from `src/data/normalization.py`. -/
def SLURM_NODE_STATE_MAP : List (Str × Str) :=
  [(("idle").toList, ("IDLE").toList),
   (("alloc").toList, ("ALLOCATED").toList),
   (("allocated").toList, ("ALLOCATED").toList),
   (("mix").toList, ("MIXED").toList),
   (("mixed").toList, ("MIXED").toList),
   (("down").toList, ("DOWN").toList),
   (("down*").toList, ("DOWN").toList),
   (("drain").toList, ("DRAINING").toList),
   (("draining").toList, ("DRAINING").toList),
   (("drained").toList, ("DRAINING").toList),
   (("drng").toList, ("DRAINING").toList),
   (("maint").toList, ("MAINTENANCE").toList),
   (("resv").toList, ("RESERVED").toList),
   (("reserved").toList, ("RESERVED").toList),
   (("reboot").toList, ("MAINTENANCE").toList),
   (("fail").toList, ("DOWN").toList),
   (("failing").toList, ("DOWN").toList),
   (("future").toList, ("OFFLINE").toList),
   (("unknown").toList, ("UNKNOWN").toList),
   (("unk").toList, ("UNKNOWN").toList),
   (("no_respond").toList, ("DOWN").toList),
   (("not_responding").toList, ("DOWN").toList),
   (("powered_off").toList, ("OFFLINE").toList),
   (("powering_down").toList, ("DRAINING").toList),
   (("powering_up").toList, ("OFFLINE").toList)]

/-- Dictionary-style lookup in an association list of strings (`key in MAP`
followed by `MAP[key]`). -/
def lookupStr (m : List (Str × Str)) (k : Str) : Option Str :=
  (m.find? (fun kv => kv.1 = k)).map (fun kv => kv.2)

/-- The modifier characters removed by `re.sub(r"[*+~#!%$]", "", ...)`. -/
def isModifierChar (c : Char) : Bool :=
  c = '*' || c = '+' || c = '~' || c = '#' || c = '!' || c = '%' || c = '$'

/-- The fall-through part of `normalize_node_state`: try both maps, then the
generic substring heuristics, defaulting to UNKNOWN. -/
def nodeStateFallback (s : Str) : Str :=
  match lookupStr PBS_NODE_STATE_MAP s with
  | some v => v
  | none =>
    match lookupStr SLURM_NODE_STATE_MAP s with
    | some v => v
    | none =>
      if containsSub s (("down").toList) || containsSub s (("fail").toList)
          || containsSub s (("error").toList) then ("DOWN").toList
      else if containsSub s (("drain").toList) then ("DRAINING").toList
      else if containsSub s (("maint").toList) then ("MAINTENANCE").toList
      else if containsSub s (("idle").toList) || containsSub s (("free").toList) then
        ("IDLE").toList
      else if containsSub s (("alloc").toList) || containsSub s (("busy").toList) then
        ("ALLOCATED").toList
      else ("UNKNOWN").toList

/-- Embeds `normalize_node_state` from `src/data/normalization.py`: lowercase and
strip, remove modifier characters, try the scheduler-specific map, then
fall through to both maps and the generic heuristics. -/
def normalize_node_state (state : Str) (scheduler : SchedulerType) : Str :=
  let s0 := pyStrip (pyLower state)
  let s := s0.filter (fun c => ¬ isModifierChar c)
  match (match scheduler with
         | .PBS => lookupStr PBS_NODE_STATE_MAP s
         | .SLURM => lookupStr SLURM_NODE_STATE_MAP s
         | _ => none) with
  | some v => v
  | none => nodeStateFallback s

/-- The canonical node-state output set documented in the specification
(§4.1): IDLE, ALLOCATED, MIXED, DOWN, DRAINING, RESERVED, MAINTENANCE,
UNKNOWN. -/
def specNodeStateSet : List Str :=
  [("IDLE").toList, ("ALLOCATED").toList, ("MIXED").toList, ("DOWN").toList,
   ("DRAINING").toList, ("RESERVED").toList, ("MAINTENANCE").toList, ("UNKNOWN").toList]

/-- A successful association-list lookup returns one of the stored values. -/
theorem lookupStr_mem {m : List (Str × Str)} {k v : Str}
    (h : lookupStr m k = some v) : v ∈ m.map Prod.snd := by
  unfold lookupStr at h
  cases hf : m.find? (fun kv => kv.1 = k) with
  | none => rw [hf] at h; cases h
  | some kv =>
    rw [hf] at h
    cases h
    exact List.mem_map_of_mem Prod.snd (List.mem_of_find?_eq_some hf)

/-- Every stored value of the PBS node-state map lies in the canonical set
extended with OFFLINE. -/
theorem nodeMapsPBS_vals :
    ∀ v ∈ PBS_NODE_STATE_MAP.map Prod.snd,
      v ∈ specNodeStateSet ++ [("OFFLINE").toList] := by decide

/-- Every stored value of the Slurm node-state map lies in the extended set. -/
theorem nodeMapsSLURM_vals :
    ∀ v ∈ SLURM_NODE_STATE_MAP.map Prod.snd,
      v ∈ specNodeStateSet ++ [("OFFLINE").toList] := by decide

/-- The fall-through chain only produces values in the extended set. -/
theorem nodeStateFallback_mem (s : Str) :
    nodeStateFallback s ∈ specNodeStateSet ++ [("OFFLINE").toList] := by
  unfold nodeStateFallback
  split
  case _ v h2 => exact nodeMapsPBS_vals v (lookupStr_mem h2)
  case _ h2 =>
    split
    case _ v h3 => exact nodeMapsSLURM_vals v (lookupStr_mem h3)
    case _ h3 =>
      split
      · decide
      · split
        · decide
        · split
          · decide
          · split
            · decide
            · split
              · decide
              · decide

/-- C3 counterexample: `normalize_node_state` maps the Slurm state
`future` to `OFFLINE`, which is not in the canonical output set
{IDLE, ALLOCATED, MIXED, DOWN, DRAINING, RESERVED, MAINTENANCE, UNKNOWN}
claimed by the specification. -/
theorem C3_claim_counterexample :
    normalize_node_state (("future").toList) SchedulerType.SLURM = ("OFFLINE").toList ∧
    ("OFFLINE").toList ∉ specNodeStateSet := by decide

/-- C3 (amended): for every input string and every scheduler,
`normalize_node_state` returns a value in the documented canonical set
extended with OFFLINE (which the Slurm map produces for `future`,
`powered_off` and `powering_up`). -/
theorem C3_node_state_codomain_amended :
    ∀ (state : Str) (sched : SchedulerType),
      normalize_node_state state sched ∈ specNodeStateSet ++ [("OFFLINE").toList] := by
  intro state sched
  unfold normalize_node_state
  cases sched <;> simp only []
  case PBS =>
    split
    case _ v heq => exact nodeMapsPBS_vals v (lookupStr_mem heq)
    case _ heq => exact nodeStateFallback_mem _
  case SLURM =>
    split
    case _ v heq => exact nodeMapsSLURM_vals v (lookupStr_mem heq)
    case _ heq => exact nodeStateFallback_mem _
  case LSF => exact nodeStateFallback_mem _
  case SGE => exact nodeStateFallback_mem _
  case UNKNOWN => exact nodeStateFallback_mem _

/-- dropWhile is the identity when no element satisfies the predicate. -/
theorem dropWhile_eq_self_of {p : Char → Bool} :
    ∀ {l : Str}, (∀ c ∈ l, p c = false) → l.dropWhile p = l := by
  intro l h
  cases l with
  | nil => rfl
  | cons c t =>
    rw [List.dropWhile_cons]
    rw [h c (List.mem_cons_self c t)]
    simp

/-- Embeds `str.strip()` is the identity on strings with no whitespace characters. -/
theorem pyStrip_eq_self {s : Str} (h : ∀ c ∈ s, isPySpace c = false) :
    pyStrip s = s := by
  unfold pyStrip
  rw [dropWhile_eq_self_of h]
  rw [dropWhile_eq_self_of (fun c hc => h c (List.mem_reverse.mp hc))]
  exact List.reverse_reverse s

/-- Digits are not Python whitespace. -/
theorem isPySpace_of_isDigit {c : Char} (h : c.isDigit = true) :
    isPySpace c = false := by
  by_contra hc
  rw [Bool.not_eq_false] at hc
  unfold isPySpace at hc
  simp only [Bool.or_eq_true, decide_eq_true_eq] at hc
  rcases hc with ((((rfl | rfl) | rfl) | rfl) | rfl) | rfl <;> exact absurd h (by decide)

/-- Every character of a split input is either the separator or belongs to
one of the parts (together with leftover accumulator characters). -/
theorem mem_splitChAux {sep : Char} :
    ∀ (s acc : Str) (c : Char), (c ∈ acc ∨ c ∈ s) →
      c = sep ∨ ∃ part ∈ splitChAux sep s acc, c ∈ part := by
  intro s
  induction s with
  | nil =>
    intro acc c hc
    rcases hc with hc | hc
    · exact Or.inr ⟨acc.reverse, List.mem_singleton.mpr rfl, List.mem_reverse.mpr hc⟩
    · cases hc
  | cons x rest ih =>
    intro acc c hc
    unfold splitChAux
    by_cases hx : x = sep
    · rw [if_pos hx]
      rcases hc with hc | hc
      · exact Or.inr ⟨acc.reverse, List.mem_cons_self _ _, List.mem_reverse.mpr hc⟩
      · rcases List.mem_cons.mp hc with rfl | hc
        · exact Or.inl hx
        · rcases ih [] c (Or.inr hc) with h | ⟨part, hp, hcp⟩
          · exact Or.inl h
          · exact Or.inr ⟨part, List.mem_cons_of_mem _ hp, hcp⟩
    · rw [if_neg hx]
      rcases hc with hc | hc
      · exact ih (x :: acc) c (Or.inl (List.mem_cons_of_mem _ hc))
      · rcases List.mem_cons.mp hc with rfl | hc
        · exact ih (c :: acc) c (Or.inl (List.mem_cons_self _ _))
        · exact ih (x :: acc) c (Or.inr hc)

/-- When the separator does not occur, splitting yields a single field. -/
theorem splitChAux_no_sep {sep : Char} :
    ∀ (s acc : Str), (∀ c ∈ s, c ≠ sep) →
      splitChAux sep s acc = [acc.reverse ++ s] := by
  intro s
  induction s with
  | nil => intro acc _; simp [splitChAux]
  | cons x rest ih =>
    intro acc h
    unfold splitChAux
    rw [if_neg (h x (List.mem_cons_self _ _))]
    rw [ih (x :: acc) (fun c hc => h c (List.mem_cons_of_mem _ hc))]
    simp

/-- Python `int` raises on any string containing a colon among digits. -/
theorem pyIntParse_none_of_colon {s : Str} (h1 : ':' ∈ s)
    (h2 : ∀ c ∈ s, c.isDigit = true ∨ c = ':') : pyIntParse s = none := by
  have hsp : ∀ c ∈ s, isPySpace c = false := by
    intro c hc
    rcases h2 c hc with hd | rfl
    · exact isPySpace_of_isDigit hd
    · decide
  unfold pyIntParse
  rw [pyStrip_eq_self hsp]
  cases s with
  | nil => cases h1
  | cons c rest =>
    have hcr := h2 c (List.mem_cons_self _ _)
    have hm : ¬ (c = '-') := by
      rcases hcr with hd | rfl
      · rintro rfl; exact absurd hd (by decide)
      · decide
    have hp : ¬ (c = '+') := by
      rcases hcr with hd | rfl
      · rintro rfl; exact absurd hd (by decide)
      · decide
    have hall : (c :: rest).all Char.isDigit = false :=
      List.all_eq_false.mpr ⟨':', h1, by decide⟩
    simp only [if_neg hm, if_neg hp, hall]
    simp

/-- The Slurm dash-format regex cannot match a string without a dash. -/
theorem slurmDashMatch_none {s : Str} (h : ∀ c ∈ s, c ≠ '-') :
    slurmDashMatch s = none := by
  unfold slurmDashMatch
  simp only []
  split
  · rfl
  · cases hdw : s.dropWhile Char.isDigit with
    | nil => rfl
    | cons c1 r1 =>
      have hc1 : c1 ∈ s := by
        have hsub : List.Sublist (s.dropWhile Char.isDigit) s :=
          List.dropWhile_sublist Char.isDigit
        exact hsub.subset (by rw [hdw]; exact List.mem_cons_self _ _)
      dsimp only
      rw [if_neg (h c1 hc1)]

/-- Embeds `int` succeeds on a non-empty all-digit string. -/
theorem pyIntParse_digits {p : Str} (h1 : p ≠ []) (h2 : p.all Char.isDigit = true) :
    pyIntParse p = some (digitsToNat p : Int) := by
  have hsp : ∀ c ∈ p, isPySpace c = false := fun c hc =>
    isPySpace_of_isDigit (List.all_eq_true.mp h2 c hc)
  unfold pyIntParse
  rw [pyStrip_eq_self hsp]
  cases p with
  | nil => exact absurd rfl h1
  | cons c rest =>
    have hcd : c.isDigit = true := List.all_eq_true.mp h2 c (List.mem_cons_self _ _)
    have hm : ¬ (c = '-') := by rintro rfl; exact absurd hcd (by decide)
    have hp : ¬ (c = '+') := by rintro rfl; exact absurd hcd (by decide)
    simp only [if_neg hm, if_neg hp, h2]
    simp

/-- Embeds `map(int, ...)` on non-empty all-digit fields yields their values. -/
theorem pyIntList_digits :
    ∀ {parts : List Str}, (∀ p ∈ parts, p ≠ [] ∧ p.all Char.isDigit = true) →
      pyIntList parts = some (parts.map (fun p => (digitsToNat p : Int))) := by
  intro parts
  induction parts with
  | nil => intro _; rfl
  | cons q rest ih =>
    intro h
    have hq := h q (List.mem_cons_self _ _)
    unfold pyIntList
    rw [pyIntParse_digits hq.1 hq.2, ih (fun p hp => h p (List.mem_cons_of_mem _ hp))]
    simp

/-- C2 counterexample: for a `QueueInfo` built with
`max_walltime_seconds = None` and `max_walltime = "60"` (a bare-integer
minutes string), `__post_init__` computes `None`, while the §4.1 parser
`parse_walltime` yields 3600 seconds — so the claimed equality fails. -/
theorem C2_claim_counterexample :
    queuePostInitSeconds none (("60").toList) = none ∧
    (parse_walltime (("60").toList)).1 = some 3600 := by decide

/-- C2 (amended): `QueueInfo.__post_init__` agrees with the §4.1 parsing
rules (`parse_walltime`) exactly on the colon-separated 3-part `HH:MM:SS`
and 4-part `DD:HH:MM:SS` forms whose fields are non-empty digit strings;
on bare-integer-minutes, Slurm `D-HH:MM:SS` and `HH:MM` inputs it computes
`None` instead (matching `parse_walltime` only on sentinel inputs, where
both are `None`). -/
theorem C2_queueinfo_walltime_amended (s : Str)
    (hlen : (splitColon s).length = 3 ∨ (splitColon s).length = 4)
    (hparts : ∀ p ∈ splitColon s, p ≠ [] ∧ p.all Char.isDigit = true) :
    queuePostInitSeconds none s = (parse_walltime s).1 := by
  have hcolon : ':' ∈ s := by
    by_contra hn
    have heq := @splitChAux_no_sep ':' s [] (fun c hc hEq => hn (hEq ▸ hc))
    have : splitColon s = [s] := by simpa [splitColon] using heq
    rw [this] at hlen
    rcases hlen with h | h <;> simp at h
  have hchars : ∀ c ∈ s, c.isDigit = true ∨ c = ':' := by
    intro c hc
    rcases mem_splitChAux s [] c (Or.inr hc) with h | ⟨p, hp, hcp⟩
    · exact Or.inr h
    · exact Or.inl (List.all_eq_true.mp (hparts p hp).2 c hcp)
  have hs_ne : s ≠ [] := by rintro rfl; cases hcolon
  have hdash_ne : ¬ (s = ("-").toList) := by
    rintro rfl
    exact absurd hcolon (by decide)
  have hsp : ∀ c ∈ s, isPySpace c = false := by
    intro c hc
    rcases hchars c hc with hd | rfl
    · exact isPySpace_of_isDigit hd
    · decide
  have hstrip : pyStrip s = s := pyStrip_eq_self hsp
  have hupper : pyUpper s ∉ walltimeSentinels := by
    intro hmem
    have h2 : ':' ∈ pyUpper s := List.mem_map.mpr ⟨':', hcolon, by decide⟩
    have h3 : ∀ t ∈ walltimeSentinels, ':' ∉ t := by decide
    exact h3 _ hmem h2
  have hint : pyIntParse s = none := pyIntParse_none_of_colon hcolon hchars
  have hdashm : slurmDashMatch s = none := by
    apply slurmDashMatch_none
    intro c hc
    rcases hchars c hc with hd | rfl
    · rintro rfl; exact absurd hd (by decide)
    · decide
  have hvals := pyIntList_digits hparts
  unfold queuePostInitSeconds
  rw [if_pos ⟨rfl, hs_ne⟩]
  unfold parse_walltime
  rw [if_neg (by push_neg; exact ⟨hs_ne, hdash_ne⟩)]
  simp only [hstrip, hint, hdashm]
  rw [if_neg hupper]
  unfold queueParseWalltime
  rcases hsplit : splitColon s with _ | ⟨a, _ | ⟨b, _ | ⟨c, _ | ⟨d, rest⟩⟩⟩⟩
  · rw [hsplit] at hlen; rcases hlen with h | h <;> simp at h
  · rw [hsplit] at hlen; rcases hlen with h | h <;> simp at h
  · rw [hsplit] at hlen; rcases hlen with h | h <;> simp at h
  · rw [hsplit] at hvals
    simp only [hsplit, hvals, List.length_cons, List.length_nil, List.map]
    norm_num
  · rw [hsplit] at hlen
    rcases hlen with h3 | h4
    · simp at h3
    · rcases rest with _ | ⟨e, rest2⟩
      · rw [hsplit] at hvals
        simp only [hsplit, hvals, List.length_cons, List.length_nil, List.map]
        norm_num
      · simp at h4

/-- C2 witness: the amended equality instantiated at the concrete
`HH:MM:SS` string `1:02:03`. -/
theorem C2_queueinfo_walltime_amended_witness :
    queuePostInitSeconds none (("1:02:03").toList) =
      (parse_walltime (("1:02:03").toList)).1 :=
  C2_queueinfo_walltime_amended (("1:02:03").toList) (by decide) (by decide)

/-- C6: the four specified `parse_walltime` equalities hold: 24:00:00 is a
day, both four-part and Slurm dash forms of seven days agree, and INFINITE
is unlimited. -/
theorem C6_parse_walltime_examples :
    parse_walltime (("24:00:00").toList) = (some 86400, ("1 day").toList) ∧
    parse_walltime (("7:00:00:00").toList) = (some 604800, ("7 days").toList) ∧
    parse_walltime (("7-00:00:00").toList) = (some 604800, ("7 days").toList) ∧
    parse_walltime (("INFINITE").toList) = (none, ("unlimited").toList) := by decide

/-! ## Dynamically typed payloads and the refresh state manager
(`src/server/workers.py`) -/

/-- A Python value as it appears in collector payloads: `None`, booleans,
integers, strings, lists and string-keyed dicts. -/
inductive PyVal where
  | none
  | bool (b : Bool)
  | int (n : Int)
  | str (s : Str)
  | list (xs : List PyVal)
  | dict (kvs : List (Str × PyVal))

/-- Python `d.get(k)` / `d[k]`-style lookup on an insertion-ordered dict
(keys are unique, so first match suffices). -/
def dictGet : List (Str × PyVal) → Str → Option PyVal
  | [], _ => Option.none
  | (k', v) :: rest, k => if k' = k then some v else dictGet rest k

/-- Python `d.get(k, default)`. -/
def dictGetD (d : List (Str × PyVal)) (k : Str) (dflt : PyVal) : PyVal :=
  match dictGet d k with
  | some v => v
  | Option.none => dflt

/-- Python `d[k] = v`: replace in place if the key exists, else append
(insertion order preserved). -/
def dictSet : List (Str × PyVal) → Str → PyVal → List (Str × PyVal)
  | [], k, v => [(k, v)]
  | (k', v') :: rest, k, v =>
    if k' = k then (k, v) :: rest else (k', v') :: dictSet rest k v

/-- Python `d.setdefault(k, default)`: the (possibly extended) dict and the
value now stored at `k`. -/
def dictSetdefault (d : List (Str × PyVal)) (k : Str) (dflt : PyVal) :
    List (Str × PyVal) × PyVal :=
  match dictGet d k with
  | some v => (d, v)
  | Option.none => (d ++ [(k, dflt)], dflt)

/-- Python truthiness of a value. -/
def pyTruthy : PyVal → Bool
  | .none => false
  | .bool b => b
  | .int n => n != 0
  | .str s => !s.isEmpty
  | .list xs => !xs.isEmpty
  | .dict kvs => !kvs.isEmpty

/-- The `DashboardState` fields touched by `refresh` (`workers.py`): the
live payload, the last error, the last refresh timestamp (a float, embedded
as a rational) and the loading flag. -/
structure DState where
  payload : Option PyVal
  last_error : Option Str
  last_refresh_ts : Option ℚ
  is_loading : Bool

/-- An effect on the persistent `DataStore` issued during a refresh. -/
inductive StoreOp where
  | save_cache (source : Str) (p : PyVal)
  | save_snapshot (source : Str) (p : PyVal)

/-- Key string `"systems"`. -/
def sysKey : Str := ("systems").toList

/-- Key string `"meta"`. -/
def metaKey : Str := ("meta").toList

/-- Key string `"stale"`. -/
def staleKey : Str := ("stale").toList

/-- The guard message logged and returned when a collection yields zero
systems while good data is live. -/
def staleMsg : Str := ("Collection returned 0 systems; keeping stale data").toList

/-- Message prefix of the exception branch of `refresh`. -/
def failPre : Str := ("Refresh failed: ").toList

/-- The text of the `TypeError` Python raises when the guard branch assigns
`["stale"]` into a live payload whose `meta` entry is not a dict (the exact
interpreter wording is irrelevant to every claim; a fixed marker stands for
it). -/
def typeErrorText : Str := ("TypeError: item assignment on non-dict meta").toList

/-- The text of the `AttributeError` Python raises when the guard calls
`.get` on a non-dict live payload. -/
def attrErrorText : Str := ("AttributeError: payload has no attribute get").toList

/-- Embeds `payload.get("systems", []) if isinstance(payload, dict) else []` from
`DashboardState.refresh`. -/
def payloadSystems (p : PyVal) : PyVal :=
  match p with
  | .dict kvs => dictGetD kvs sysKey (.list [])
  | _ => .list []

/-- The success path of `refresh`: write cache and history, swap the live
payload in, clear the error, stamp the time, clear the loading flag. -/
def refreshSuccess (payload : PyVal) (now : ℚ) (src : Str) :
    DState × List StoreOp × (Bool × Str) :=
  (⟨some payload, Option.none, some now, false⟩,
   [.save_cache src payload, .save_snapshot src payload],
   (true, ("Refreshed.").toList))

/-- Embeds `DashboardState.refresh` from `src/server/workers.py`, uncontended
(lock acquired): the collection call is `gen` (an exception embedded as
`.error`), `now` is `time.time()`, `src` is `source_name`.  Returns the
new state, the store effects issued, and the `(success, message)` result. -/
def refresh (st : DState) (gen : Except Str PyVal) (now : ℚ) (src : Str) :
    DState × List StoreOp × (Bool × Str) :=
  match gen with
  | .error exc =>
    ({st with last_error := some exc}, [], (false, failPre ++ exc))
  | .ok payload =>
    let systems := payloadSystems payload
    if pyTruthy systems then refreshSuccess payload now src
    else
      match st.payload with
      | Option.none => refreshSuccess payload now src
      | some live =>
        if pyTruthy live then
          match live with
          | .dict okvs =>
            if pyTruthy (dictGetD okvs sysKey .none) then
              -- regression guard branch: error text and timestamp are set
              -- before the meta mutation, so they survive a TypeError
              let st1 := {st with last_error := some staleMsg,
                                  last_refresh_ts := some now}
              match dictSetdefault okvs metaKey (.dict []) with
              | (okvs1, .dict m) =>
                let newLive := PyVal.dict
                  (dictSet okvs1 metaKey (.dict (dictSet m staleKey (.bool true))))
                ({st1 with payload := some newLive},
                 [.save_snapshot src payload], (false, staleMsg))
              | (_, _) =>
                ({st1 with last_error := some typeErrorText}, [],
                 (false, failPre ++ typeErrorText))
            else refreshSuccess payload now src
          | _ =>
            ({st with last_error := some attrErrorText}, [],
             (false, failPre ++ attrErrorText))
        else refreshSuccess payload now src

/-- Looking up the key just assigned returns the new value. -/
theorem dictGet_dictSet_self (d : List (Str × PyVal)) (k : Str) (v : PyVal) :
    dictGet (dictSet d k v) k = some v := by
  induction d with
  | nil => simp [dictSet, dictGet]
  | cons kv rest ih =>
    obtain ⟨k', v'⟩ := kv
    by_cases h : k' = k
    · simp [dictSet, dictGet, h]
    · simp [dictSet, dictGet, h, ih]

/-- Assignment leaves every other key unchanged. -/
theorem dictGet_dictSet_ne (d : List (Str × PyVal)) {k k' : Str} (v : PyVal)
    (h : k' ≠ k) : dictGet (dictSet d k v) k' = dictGet d k' := by
  induction d with
  | nil => simp [dictSet, dictGet, Ne.symm h]
  | cons kv rest ih =>
    obtain ⟨k0, v0⟩ := kv
    by_cases h0 : k0 = k
    · subst h0
      simp [dictSet, dictGet, Ne.symm h]
    · simp [dictSet, dictGet, h0, ih]

/-- Lookup distributes over concatenation, first dict winning. -/
theorem dictGet_append (a b : List (Str × PyVal)) (k : Str) :
    dictGet (a ++ b) k =
      (match dictGet a k with
       | some v => some v
       | Option.none => dictGet b k) := by
  induction a with
  | nil => simp [dictGet]
  | cons kv rest ih =>
    obtain ⟨k', v'⟩ := kv
    by_cases h : k' = k
    · simp [dictGet, h]
    · simp [dictGet, h, ih]

/-- C5: an exception from the collection function is caught inside
`refresh`: the call returns `(false, "Refresh failed: <exc>")` instead of
propagating, records the exception text as the last error, issues no store
writes, and leaves the live payload (and every other field) exactly as it
was before the call. -/
theorem C5_refresh_exception_caught (st : DState) (e : Str) (now : ℚ) (src : Str) :
    refresh st (.error e) now src =
      ({st with last_error := some e}, [], (false, failPre ++ e)) := rfl

/-- C10: after an exception-failure `refresh`, the last-refresh timestamp
(and the payload and loading flag) are exactly those held before the call —
only the last error changes — whereas the empty-result (regression-guard)
path stamps the timestamp with the current time. -/
theorem C10_refresh_timestamp_frame (st : DState) (e : Str) (now : ℚ) (src : Str)
    (okvs : List (Str × PyVal)) (p : PyVal)
    (h0 : st.payload = some (.dict okvs))
    (h1 : pyTruthy (dictGetD okvs sysKey .none) = true)
    (h2 : pyTruthy (payloadSystems p) = false) :
    (refresh st (.error e) now src).1.last_refresh_ts = st.last_refresh_ts ∧
    (refresh st (.error e) now src).1.payload = st.payload ∧
    (refresh st (.error e) now src).1.is_loading = st.is_loading ∧
    (refresh st (.error e) now src).1.last_error = some e ∧
    (refresh st (.ok p) now src).1.last_refresh_ts = some now := by
  refine ⟨rfl, rfl, rfl, rfl, ?_⟩
  have hne : okvs ≠ [] := by
    rintro rfl
    simp [dictGetD, dictGet, pyTruthy] at h1
  have hlive : pyTruthy (PyVal.dict okvs) = true := by
    cases okvs with
    | nil => exact absurd rfl hne
    | cons a t => rfl
  unfold refresh
  simp only [h0, h2, Bool.false_eq_true, if_false, hlive, if_true]
  rw [if_pos h1]
  rcases hsd : dictSetdefault okvs metaKey (.dict []) with ⟨okvs1, v⟩
  cases v <;> rfl

/-- C10 witness: the frame property at a concrete state, exception text,
time and generated payload. -/
theorem C10_refresh_timestamp_frame_witness :
    (refresh ⟨some (.dict [(sysKey, .list [.int 1])]), Option.none, some 3, false⟩
        (.ok (.dict [])) 5 (("fleet_status").toList)).1.last_refresh_ts = some 5 :=
  (C10_refresh_timestamp_frame
    ⟨some (.dict [(sysKey, .list [.int 1])]), Option.none, some 3, false⟩
    [] 5 (("fleet_status").toList) [(sysKey, .list [.int 1])] (.dict [])
    rfl (by decide) (by decide)).2.2.2.2

/-- The live payload of the C1 counterexample: a non-empty `systems` list
and a `meta` entry that is a string rather than a dict. -/
def c1LiveKvs : List (Str × PyVal) :=
  [(sysKey, .list [.int 1]), (metaKey, .str (("x").toList))]

/-- The C1 counterexample dashboard state. -/
def c1State : DState := ⟨some (.dict c1LiveKvs), Option.none, Option.none, false⟩

/-- C1 counterexample: with a live payload whose `systems` list is
non-empty but whose `meta` entry is a string, an empty-result refresh hits
a `TypeError` while setting `stale`: no snapshot is persisted (store-op
list is empty), the live payload is not marked stale (it is unchanged),
and the call still returns a failure — contradicting the claim that the
empty result is persisted to history and `meta.stale` is set. -/
theorem C1_claim_counterexample :
    (refresh c1State (.ok (.dict [])) 0 (("fleet_status").toList)).2.1 = [] ∧
    (refresh c1State (.ok (.dict [])) 0 (("fleet_status").toList)).1.payload
      = some (.dict c1LiveKvs) ∧
    (refresh c1State (.ok (.dict [])) 0 (("fleet_status").toList)).2.2.1 = false :=
  ⟨rfl, rfl, rfl⟩

/-- C1 (amended): for every `DashboardState` whose live payload has a
non-empty `systems` list and whose `meta` entry, if present, is a dict, a
refresh whose collection returns a payload with zero systems returns
`(false, "Collection returned 0 systems; keeping stale data")`, persists
the empty result to the history store only (one `save_snapshot`, no
`save_cache`), records the message and the current time, and leaves the
live payload's content unchanged except that `meta.stale` is set to
`true`. -/
theorem C1_regression_guard_amended (st : DState) (okvs : List (Str × PyVal))
    (l : List PyVal) (p : PyVal) (now : ℚ) (src : Str)
    (h0 : st.payload = some (.dict okvs))
    (h1 : dictGet okvs sysKey = some (.list l)) (hl : l ≠ [])
    (h2 : pyTruthy (payloadSystems p) = false)
    (hmeta : dictGet okvs metaKey = Option.none ∨
             ∃ m, dictGet okvs metaKey = some (.dict m)) :
    (refresh st (.ok p) now src).2.2 = (false, staleMsg) ∧
    (refresh st (.ok p) now src).2.1 = [StoreOp.save_snapshot src p] ∧
    (refresh st (.ok p) now src).1.last_error = some staleMsg ∧
    (refresh st (.ok p) now src).1.last_refresh_ts = some now ∧
    ∃ okvs1,
      (refresh st (.ok p) now src).1.payload = some (.dict okvs1) ∧
      (∀ k, k ≠ metaKey → dictGet okvs1 k = dictGet okvs k) ∧
      ∃ m1, dictGet okvs1 metaKey = some (.dict m1) ∧
        dictGet m1 staleKey = some (.bool true) ∧
        ∀ k, k ≠ staleKey →
          dictGet m1 k = (match dictGet okvs metaKey with
                          | some (.dict m) => dictGet m k
                          | _ => Option.none) := by
  have h1T : pyTruthy (dictGetD okvs sysKey .none) = true := by
    simp [dictGetD, h1, pyTruthy, hl]
  have hne : okvs ≠ [] := by rintro rfl; simp [dictGet] at h1
  have hlive : pyTruthy (PyVal.dict okvs) = true := by
    cases okvs with
    | nil => exact absurd rfl hne
    | cons a t => rfl
  unfold refresh
  simp only [h0, h2, Bool.false_eq_true, if_false, hlive, if_true]
  rw [if_pos h1T]
  rcases hmeta with hm | ⟨m, hm⟩
  · have hsd : dictSetdefault okvs metaKey (.dict []) =
        (okvs ++ [(metaKey, .dict [])], .dict []) := by
      unfold dictSetdefault
      rw [hm]
    rw [hsd]
    refine ⟨rfl, rfl, rfl, rfl,
      dictSet (okvs ++ [(metaKey, .dict [])]) metaKey
        (.dict (dictSet [] staleKey (.bool true))), rfl, ?_, ?_⟩
    · intro k hk
      rw [dictGet_dictSet_ne _ _ hk, dictGet_append]
      cases hko : dictGet okvs k with
      | some v => rfl
      | none => simp [dictGet, Ne.symm hk]
    · refine ⟨dictSet [] staleKey (.bool true),
        dictGet_dictSet_self _ _ _, rfl, ?_⟩
      intro k hk
      rw [hm]
      simp [dictSet, dictGet, Ne.symm hk]
  · have hsd : dictSetdefault okvs metaKey (.dict []) = (okvs, .dict m) := by
      unfold dictSetdefault
      rw [hm]
    rw [hsd]
    refine ⟨rfl, rfl, rfl, rfl,
      dictSet okvs metaKey (.dict (dictSet m staleKey (.bool true))), rfl, ?_, ?_⟩
    · intro k hk
      exact dictGet_dictSet_ne _ _ hk
    · refine ⟨dictSet m staleKey (.bool true), dictGet_dictSet_self _ _ _,
        dictGet_dictSet_self _ _ _, ?_⟩
      intro k hk
      rw [hm, dictGet_dictSet_ne _ _ hk]

/-- C1 witness: the amended guard at a concrete two-key live payload. -/
theorem C1_regression_guard_amended_witness :
    (refresh ⟨some (.dict [(sysKey, .list [.int 1]), (metaKey, .dict [])]),
        Option.none, Option.none, false⟩
      (.ok (.dict [])) 7 (("fleet_status").toList)).2.1
      = [StoreOp.save_snapshot (("fleet_status").toList) (.dict [])] :=
  (C1_regression_guard_amended
    ⟨some (.dict [(sysKey, .list [.int 1]), (metaKey, .dict [])]),
      Option.none, Option.none, false⟩
    [(sysKey, .list [.int 1]), (metaKey, .dict [])]
    [.int 1] (.dict []) 7 (("fleet_status").toList)
    rfl rfl (List.cons_ne_nil _ _) rfl (Or.inr ⟨[], rfl⟩)).2.1

/-! ## Collection result builder (`src/collectors/hpcmp.py`) -/

/-- One raw per-system record as assembled by `_fetch_status`: the fields
`_build_payload` reads.  Absent/None values are `Option.none`. -/
structure RawRow where
  status : Option Str
  dsrc : Option Str
  sched : Option Str
  observed_at : Str

/-- Python `(x or default)` on an optional string: `None` and the empty
string are falsy. -/
def orIfFalsy (v : Option Str) (d : Str) : Str :=
  match v with
  | some s => if s.isEmpty then d else s
  | Option.none => d

/-- One `Counter` increment. -/
def bumpCount : List (Str × Nat) → Str → List (Str × Nat)
  | [], k => [(k, 1)]
  | (k', n) :: rest, k =>
    if k' = k then (k', n + 1) :: rest else (k', n) :: bumpCount rest k

/-- Embeds `collections.Counter` over a field of the rows (insertion-ordered, as
`dict(counter)` preserves first-seen order). -/
def counterOf (f : RawRow → Str) (rows : List RawRow) : List (Str × Nat) :=
  rows.foldl (fun acc r => bumpCount acc (f r)) []

/-- Embeds `(r.get("status") or "UNKNOWN").upper()`. -/
def rowStatusU (r : RawRow) : Str := pyUpper (orIfFalsy r.status (("UNKNOWN").toList))

/-- Embeds `(r.get("dsrc") or "UNKNOWN").upper()`. -/
def rowDsrcU (r : RawRow) : Str := pyUpper (orIfFalsy r.dsrc (("UNKNOWN").toList))

/-- Embeds `(r.get("scheduler") or "UNKNOWN").upper()`. -/
def rowSchedU (r : RawRow) : Str := pyUpper (orIfFalsy r.sched (("UNKNOWN").toList))

/-- Embeds `sum(1 for r in rows if (r.get("status") or "").upper() == "UP")`. -/
def countUp (rows : List RawRow) : Nat :=
  (rows.filter (fun r => pyUpper (orIfFalsy r.status []) = ("UP").toList)).length

/-- Python 3 `round` to an integer: round-half-to-even (the floats that
occur here are embedded as rationals). -/
def roundHalfEven (q : ℚ) : Int :=
  let f := ⌊q⌋
  if q - f < 1/2 then f
  else if q - f > 1/2 then f + 1
  else if f % 2 = 0 then f else f + 1

/-- Python `round(q, 3)`. -/
def round3 (q : ℚ) : ℚ := (roundHalfEven (q * 1000) : ℚ) / 1000

/-- The `meta` block produced by `_build_payload`. -/
structure BuiltMeta where
  source_url : Str
  generated_at : Option Str
  collector : Str

/-- The `summary` block produced by `_build_payload` (`uptimeFrac` embeds
the `uptime_ratio` field). -/
structure BuiltSummary where
  total_systems : Nat
  status_counts : List (Str × Nat)
  dsrc_counts : List (Str × Nat)
  scheduler_counts : List (Str × Nat)
  uptimeFrac : ℚ

/-- The payload returned by `HPCMPCollector._build_payload`. -/
structure BuiltPayload where
  meta : BuiltMeta
  summary : BuiltSummary
  systems : List RawRow

/-- Embeds `HPCMPCollector._build_payload` from `src/collectors/hpcmp.py`. -/
def build_payload (url : Str) (collector : Str) (rows : List RawRow) : BuiltPayload :=
  let statuses := counterOf rowStatusU rows
  let dsrcs := counterOf rowDsrcU rows
  let scheds := counterOf rowSchedU rows
  let uptime : ℚ := if rows.isEmpty then 0 else (countUp rows : ℚ) / (rows.length : ℚ)
  let observed_at := (rows.head?).map (fun r => r.observed_at)
  { meta := ⟨url, observed_at, collector⟩,
    summary := ⟨rows.length, statuses, dsrcs, scheds, round3 uptime⟩,
    systems := rows }

/-- C4 counterexample: on an empty record list `_build_payload` stamps
`meta.generated_at = None` — it does not consult the clock at all — so the
claim that the generation time is the current time for empty input is
false (the `uptime_ratio = 0.0` and `total_systems = 0` parts do hold). -/
theorem C4_claim_counterexample :
    (build_payload [] [] []).meta.generated_at = Option.none ∧
    (build_payload [] [] []).summary.uptimeFrac = 0 ∧
    (build_payload [] [] []).summary.total_systems = 0 := by
  refine ⟨rfl, ?_, rfl⟩
  simp [build_payload, round3, roundHalfEven]

/-- C4 (amended): `_build_payload` stamps `meta.generated_at` with the
observation time of the first record; when the record list is empty the
generation time is `None` (not the current time), `uptime_ratio` is `0.0`
and `total_systems` is `0`. -/
theorem C4_generated_at_amended (url coll : Str) (rows : List RawRow) :
    (rows = [] →
      (build_payload url coll rows).meta.generated_at = Option.none ∧
      (build_payload url coll rows).summary.uptimeFrac = 0 ∧
      (build_payload url coll rows).summary.total_systems = 0) ∧
    (∀ r rs, rows = r :: rs →
      (build_payload url coll rows).meta.generated_at = some r.observed_at) := by
  constructor
  · rintro rfl
    refine ⟨rfl, ?_, rfl⟩
    simp [build_payload, round3, roundHalfEven]
  · rintro r rs rfl
    rfl

/-- C4 witness: the amended statement applied to the empty list and to a
concrete one-record list. -/
theorem C4_generated_at_amended_witness :
    (build_payload [] [] []).summary.uptimeFrac = 0 ∧
    (build_payload [] [] [⟨Option.none, Option.none, Option.none,
        ("t0").toList⟩]).meta.generated_at = some (("t0").toList) :=
  ⟨((C4_generated_at_amended [] [] []).1 rfl).2.1,
   (C4_generated_at_amended [] [] _).2 ⟨Option.none, Option.none, Option.none,
      ("t0").toList⟩ [] rfl⟩

/-! ## Cluster monitor worker (`src/server/workers.py`) -/

/-- Key string `"cluster_usage"`. -/
def cuKey : Str := ("cluster_usage").toList

/-- Key string `"pw_cluster"`. -/
def pwKey : Str := ("pw_cluster").toList

/-- Key string `"clusters"`. -/
def clustersKey : Str := ("clusters").toList

/-- Key string `"cluster_count"`. -/
def ccKey : Str := ("cluster_count").toList

/-- Key string `"empty_result"`. -/
def erKey : Str := ("empty_result").toList

/-- The mutable counters of `ClusterMonitorWorker` read by `_collect_data`. -/
structure MonSt where
  consecutive_failures : Nat
  collection_count : Nat

/-- Observable effects of one `_collect_data` tick. -/
inductive MonOp where
  | sleepPause (seconds : Nat)
  | saveCache (key : Str) (v : PyVal)
  | saveSnapshot (key : Str) (v : PyVal)
  | cleanup

/-- The `try` body of `ClusterMonitorWorker._collect_data`: one collection
attempt (`res` is `self._collector.collect()`, `.error` embedding a raised
exception).  Empty results increment the failure counter and save a
snapshot marked `empty_result`; success resets the counter, saves cache
and snapshot, logs `data['meta']['cluster_count']` (whose absence raises,
caught by the outer `except`, which increments the counter) and runs the
periodic cleanup every 100th collection. -/
def attemptCollect (st : MonSt) (res : Except Str PyVal) : MonSt × List MonOp :=
  match res with
  | .error _ => ({st with consecutive_failures := st.consecutive_failures + 1}, [])
  | .ok (.dict kvs) =>
    let clusters := dictGetD kvs clustersKey (.list [])
    if pyTruthy clusters then
      let st1 : MonSt := ⟨0, st.collection_count⟩
      let ops := [MonOp.saveCache cuKey clusters, MonOp.saveSnapshot pwKey (.dict kvs)]
      match dictGet kvs metaKey with
      | some (.dict m) =>
        match dictGet m ccKey with
        | some _ =>
          let st2 : MonSt := ⟨0, st1.collection_count + 1⟩
          if st2.collection_count % 100 = 0 then (st2, ops ++ [MonOp.cleanup])
          else (st2, ops)
        | Option.none =>
          ({st1 with consecutive_failures := st1.consecutive_failures + 1}, ops)
      | some _ => ({st1 with consecutive_failures := st1.consecutive_failures + 1}, ops)
      | Option.none =>
        ({st1 with consecutive_failures := st1.consecutive_failures + 1}, ops)
    else
      let st1 := {st with consecutive_failures := st.consecutive_failures + 1}
      match dictSetdefault kvs metaKey (.dict []) with
      | (kvs1, .dict m) =>
        let data1 := PyVal.dict (dictSet kvs1 metaKey (.dict (dictSet m erKey (.bool true))))
        (st1, [MonOp.saveSnapshot pwKey data1])
      | (_, _) =>
        ({st1 with consecutive_failures := st1.consecutive_failures + 1}, [])
  | .ok _ => ({st with consecutive_failures := st.consecutive_failures + 1}, [])

/-- Embeds `ClusterMonitorWorker._collect_data` from `src/server/workers.py`:
the circuit breaker pauses when the failure counter has reached the
threshold; `stopped` tells whether the stop event fires during the pause
(in which case the method returns with the counter unreset); otherwise the
counter is reset and the collection attempt proceeds on the same tick. -/
def collect_data (st : MonSt) (threshold pause : Nat) (stopped : Bool)
    (res : Except Str PyVal) : MonSt × List MonOp :=
  if st.consecutive_failures ≥ threshold then
    if stopped then (st, [MonOp.sleepPause pause])
    else
      let r := attemptCollect ⟨0, st.collection_count⟩ res
      (r.1, MonOp.sleepPause pause :: r.2)
  else attemptCollect st res

/-- A well-formed successful collection payload, as
`PWClusterCollector.collect` always produces. -/
def c7GoodData : PyVal :=
  .dict [(metaKey, .dict [(ccKey, .int 1)]), (clustersKey, .list [.dict []])]

/-- C7 counterexample: a tick entered with the failure counter at the
threshold (3), not stopped, and a successful one-cluster collection:
after the 300s pause the worker resets the counter AND attempts collection
on that same tick (the cache write is issued) — contradicting the claim
that it pauses and resets instead of attempting collection on that tick. -/
theorem C7_claim_counterexample :
    (collect_data ⟨3, 0⟩ 3 300 false (.ok c7GoodData)).2 =
      [MonOp.sleepPause 300,
       MonOp.saveCache cuKey (.list [.dict []]),
       MonOp.saveSnapshot pwKey c7GoodData] ∧
    (collect_data ⟨3, 0⟩ 3 300 false (.ok c7GoodData)).1.consecutive_failures = 0 :=
  ⟨rfl, rfl⟩

/-- C7 (amended): on a tick entered at or above the failure threshold the
worker sleeps for the pause duration and then — unless the stop event
fired during the pause, in which case it returns with the counter unreset
— resets the counter to zero and proceeds to attempt collection on that
same tick; below the threshold it attempts collection directly; an
exception result increments the counter; an empty result (with a dict or
absent `meta`, as the collector guarantees) increments the counter and
saves only a history snapshot; a successful collection carrying
`meta.cluster_count` resets the counter to zero. -/
theorem C7_circuit_breaker_amended (st : MonSt) (threshold pause : Nat)
    (res : Except Str PyVal) :
    (st.consecutive_failures ≥ threshold →
      collect_data st threshold pause true res = (st, [MonOp.sleepPause pause]) ∧
      collect_data st threshold pause false res =
        ((attemptCollect ⟨0, st.collection_count⟩ res).1,
         MonOp.sleepPause pause :: (attemptCollect ⟨0, st.collection_count⟩ res).2)) ∧
    (st.consecutive_failures < threshold → ∀ b,
      collect_data st threshold pause b res = attemptCollect st res) ∧
    (∀ e, res = .error e →
      (attemptCollect st res).1.consecutive_failures = st.consecutive_failures + 1 ∧
      (attemptCollect st res).2 = []) ∧
    (∀ kvs, res = .ok (.dict kvs) →
      pyTruthy (dictGetD kvs clustersKey (.list [])) = false →
      (dictGet kvs metaKey = Option.none ∨ ∃ m, dictGet kvs metaKey = some (.dict m)) →
      (attemptCollect st res).1.consecutive_failures = st.consecutive_failures + 1 ∧
      ∃ d, (attemptCollect st res).2 = [MonOp.saveSnapshot pwKey d]) ∧
    (∀ kvs m, res = .ok (.dict kvs) →
      pyTruthy (dictGetD kvs clustersKey (.list [])) = true →
      dictGet kvs metaKey = some (.dict m) →
      (dictGet m ccKey).isSome = true →
      (attemptCollect st res).1.consecutive_failures = 0) := by
  refine ⟨?_, ?_, ?_, ?_, ?_⟩
  · intro h
    constructor
    · unfold collect_data
      rw [if_pos h, if_pos rfl]
    · unfold collect_data
      rw [if_pos h]
      simp
  · intro h b
    unfold collect_data
    rw [if_neg (not_le.mpr h)]
  · rintro e rfl
    exact ⟨rfl, rfl⟩
  · rintro kvs rfl hempty hmeta
    unfold attemptCollect
    simp only [hempty, Bool.false_eq_true, if_false]
    rcases hmeta with hm | ⟨m, hm⟩
    · have hsd : dictSetdefault kvs metaKey (.dict []) =
          (kvs ++ [(metaKey, .dict [])], .dict []) := by
        unfold dictSetdefault
        rw [hm]
      rw [hsd]
      exact ⟨rfl, _, rfl⟩
    · have hsd : dictSetdefault kvs metaKey (.dict []) = (kvs, .dict m) := by
        unfold dictSetdefault
        rw [hm]
      rw [hsd]
      exact ⟨rfl, _, rfl⟩
  · rintro kvs m rfl hfull hm hcc
    unfold attemptCollect
    simp only [hfull, if_true]
    rw [hm]
    dsimp only
    rcases hv : dictGet m ccKey with _ | v
    · rw [hv] at hcc
      cases hcc
    · dsimp only
      split <;> rfl

/-- C7 witness: the amended statement instantiated at threshold ticks,
sub-threshold ticks, an exception, an empty result and a good result. -/
theorem C7_circuit_breaker_amended_witness :
    collect_data ⟨3, 0⟩ 3 300 true (.ok c7GoodData) = (⟨3, 0⟩, [MonOp.sleepPause 300]) ∧
    collect_data ⟨0, 0⟩ 3 300 false (.ok c7GoodData) = attemptCollect ⟨0, 0⟩ (.ok c7GoodData) ∧
    (attemptCollect ⟨1, 0⟩ (.error (("boom").toList))).1.consecutive_failures = 2 ∧
    (attemptCollect ⟨1, 0⟩ (.ok (.dict [(clustersKey, .list [])]))).1.consecutive_failures = 2 ∧
    (attemptCollect ⟨2, 5⟩ (.ok c7GoodData)).1.consecutive_failures = 0 :=
  ⟨((C7_circuit_breaker_amended ⟨3, 0⟩ 3 300 (.ok c7GoodData)).1 (by decide)).1,
   (C7_circuit_breaker_amended ⟨0, 0⟩ 3 300 (.ok c7GoodData)).2.1 (by decide) false,
   ((C7_circuit_breaker_amended ⟨1, 0⟩ 3 300 (.error (("boom").toList))).2.2.1
      (("boom").toList) rfl).1,
   ((C7_circuit_breaker_amended ⟨1, 0⟩ 3 300 (.ok (.dict [(clustersKey, .list [])]))).2.2.2.1
      [(clustersKey, .list [])] rfl rfl (Or.inl rfl)).1,
   (C7_circuit_breaker_amended ⟨2, 5⟩ 3 300 (.ok c7GoodData)).2.2.2.2
      [(metaKey, .dict [(ccKey, .int 1)]), (clustersKey, .list [.dict []])]
      [(ccKey, .int 1)] rfl rfl rfl rfl⟩

/-! ## Recommendation engine (`src/insights/recommendations.py`) -/

/-- Embeds `JobRequirements` from `src/insights/recommendations.py` (hours as
rationals; `priorityLevel` embeds the `priority` string field). -/
structure JobRequirements where
  cores : Int
  walltime_hours : ℚ
  memory_gb : Option ℚ
  gpus : Int
  storage_gb : Option ℚ
  priorityLevel : Str

/-- The queue fields `_score_queue` reads: `max_walltime`,
`jobs.pending` (raw value, coerced by `_safe_int`), `utilization_percent`,
and the `type`/`queue_type` strings. -/
structure RQueue where
  max_walltime : Str
  jobs_pending : PyVal
  utilization_percent : Option ℚ
  typeField : Option Str
  queue_type : Option Str

/-- The system fields `_get_allocation_remaining` reads from `usage`. -/
structure RSystem where
  usage_percent_remaining : Option ℚ
  usage_total_allocated_hours : ℚ
  usage_total_remaining_hours : ℚ

/-- Embeds `RecommendationEngine._get_allocation_remaining`. -/
def get_allocation_remaining (sys : RSystem) : Option ℚ :=
  match sys.usage_percent_remaining with
  | some p => some p
  | Option.none =>
    if sys.usage_total_allocated_hours > 0 then
      some (sys.usage_total_remaining_hours / sys.usage_total_allocated_hours * 100)
    else Option.none

/-- Embeds `RecommendationEngine._parse_walltime`: only the 3-part colon form,
reading hours and minutes (the seconds field is never converted), yielding
hours as a float. -/
def recParseWalltime (walltime : Str) : Option ℚ :=
  if walltime = [] ∨ walltime = ("-").toList then Option.none
  else
    match splitColon walltime with
    | [p0, p1, _] =>
      match pyIntParse p0, pyIntParse p1 with
      | some h, some m => some ((h : ℚ) + (m : ℚ) / 60)
      | _, _ => Option.none
    | _ => Option.none

/-- Python `str(value)` for the value shapes that can reach `_safe_int`
(container reprs never parse as integers, so a bracket marker stands for
them). -/
def pyStrOf : PyVal → Str
  | .none => ("None").toList
  | .bool true => ("True").toList
  | .bool false => ("False").toList
  | .int n => intToStr n
  | .str s => s
  | .list _ => ("[...]").toList
  | .dict _ => ("[...]").toList

/-- Embeds `str.replace(",", "")`. -/
def removeCommas (s : Str) : Str := s.filter (fun c => c ≠ ',')

/-- Embeds `RecommendationEngine._safe_int`:
`int(str(value).strip().replace(",", ""))` with default 0 on failure. -/
def safe_int (v : PyVal) : Int :=
  match pyIntParse (removeCommas (pyStrip (pyStrOf v))) with
  | some n => n
  | Option.none => 0

/-- Embeds `(queue.get("type") or queue.get("queue_type") or "").lower()`. -/
def qtypeOf (q : RQueue) : Str :=
  pyLower (orIfFalsy q.typeField (orIfFalsy q.queue_type []))

/-- The pending-depth penalty block of `_score_queue`: a no-op at zero
pending jobs, otherwise `max(0.2, 1 - pending * 0.05)`. -/
def pendingFactor (pending : Int) : ℚ :=
  if pending > 0 then max 0.2 (1 - (pending : ℚ) * 0.05) else 1

/-- The utilization-band penalty block of `_score_queue`. -/
def utilFactor : Option ℚ → ℚ
  | some u => if u > 90 then 0.5 else if u > 70 then 0.8 else 1
  | Option.none => 1

/-- The GPU-match block of `_score_queue`. -/
def gpuFactor (gpus : Int) (qt : Str) : ℚ :=
  if gpus > 0 ∧ containsSub qt (("gpu").toList) = true then 1.2
  else if gpus = 0 ∧ containsSub qt (("gpu").toList) = true then 0.5
  else 1

/-- The allocation-remaining block of `_score_queue`. -/
def allocFactor : Option ℚ → ℚ
  | some a => if a < 10 then 0.3 else if a < 25 then 0.7 else if a > 75 then 1.1 else 1
  | Option.none => 1

/-- Python `min(a, b)` (returns `a` on ties). -/
def pyMin (a b : ℚ) : ℚ := if a ≤ b then a else b

/-- Embeds `RecommendationEngine._score_queue`: rejects (returns 0) when the
parsed max walltime is truthy (non-None AND non-zero — Python's `if
max_walltime` treats 0.0 as false) and smaller than the required hours;
otherwise the sequential `score *= ...` updates are the product of the
block factors, clamped by `min(1.0, score)`. -/
def score_queue (q : RQueue) (req : JobRequirements) (sys : RSystem) : ℚ :=
  let mw := recParseWalltime q.max_walltime
  if (match mw with
      | some w => decide (w ≠ 0) && decide (req.walltime_hours > w)
      | Option.none => false) then 0
  else
    pyMin 1.0 ((((1 * pendingFactor (safe_int q.jobs_pending))
      * utilFactor q.utilization_percent)
      * gpuFactor req.gpus (qtypeOf q))
      * allocFactor (get_allocation_remaining sys))

theorem pendingFactor_pos (p : Int) : 0 < pendingFactor p := by
  unfold pendingFactor
  split
  · exact lt_of_lt_of_le (by norm_num) (le_max_left _ _)
  · norm_num

theorem utilFactor_pos (u : Option ℚ) : 0 < utilFactor u := by
  rcases u with _ | u
  · norm_num [utilFactor]
  · unfold utilFactor
    dsimp only
    split_ifs <;> norm_num

theorem gpuFactor_pos (g : Int) (qt : Str) : 0 < gpuFactor g qt := by
  unfold gpuFactor
  split_ifs <;> norm_num

theorem allocFactor_pos (a : Option ℚ) : 0 < allocFactor a := by
  rcases a with _ | a
  · norm_num [allocFactor]
  · unfold allocFactor
    dsimp only
    split_ifs <;> norm_num

/-- The queue of the C8 counterexample: a parsed max walltime of exactly
zero hours. -/
def c8Queue : RQueue := ⟨("0:00:00").toList, .int 0, Option.none, Option.none, Option.none⟩

/-- The job of the C8 counterexample: one required hour. -/
def c8Req : JobRequirements := ⟨1, 1, Option.none, 0, Option.none, ("normal").toList⟩

/-- A system without allocation data. -/
def c8Sys : RSystem := ⟨Option.none, 0, 0⟩

/-- Embeds `_parse_walltime("0:00:00")` evaluates to zero hours. -/
theorem recParse000 : recParseWalltime (("0:00:00").toList) = some 0 := by
  unfold recParseWalltime
  rw [if_neg (by decide)]
  have h1 : splitColon (("0:00:00").toList) =
      [("0").toList, ("00").toList, ("00").toList] := by decide
  rw [h1]
  dsimp only
  have h2 : pyIntParse (("0").toList) = some 0 := by decide
  have h3 : pyIntParse (("00").toList) = some 0 := by decide
  rw [h2, h3]
  dsimp only
  norm_num

/-- Embeds `_parse_walltime("24:00:00")` evaluates to 24 hours. -/
theorem recParse2400 : recParseWalltime (("24:00:00").toList) = some 24 := by
  unfold recParseWalltime
  rw [if_neg (by decide)]
  have h1 : splitColon (("24:00:00").toList) =
      [("24").toList, ("00").toList, ("00").toList] := by decide
  rw [h1]
  dsimp only
  have h2 : pyIntParse (("24").toList) = some 24 := by decide
  have h3 : pyIntParse (("00").toList) = some 0 := by decide
  rw [h2, h3]
  dsimp only
  norm_num

/-- C8 counterexample: the queue `max_walltime = "0:00:00"` parses to
`0.0` hours, which is non-null and less than the required 1 hour, yet
`_score_queue` returns 1, not 0 — Python's `if max_walltime` treats the
float `0.0` as false, so the rejection branch is skipped. -/
theorem C8_claim_counterexample :
    recParseWalltime (("0:00:00").toList) = some 0 ∧
    (0 : ℚ) < 1 ∧
    score_queue c8Queue c8Req c8Sys = 1 := by
  refine ⟨recParse000, by norm_num, ?_⟩
  have hmw : recParseWalltime c8Queue.max_walltime = some (0 : ℚ) := recParse000
  unfold score_queue
  rw [hmw]
  dsimp only
  rw [if_neg (by norm_num)]
  have hs : safe_int c8Queue.jobs_pending = 0 := by decide
  rw [hs]
  have hqt : qtypeOf c8Queue = [] := by decide
  rw [hqt]
  have hal : get_allocation_remaining c8Sys = Option.none := by
    unfold get_allocation_remaining c8Sys
    dsimp only
    rw [if_neg (by norm_num)]
  rw [hal]
  have hgpu : gpuFactor c8Req.gpus [] = 1 := by
    unfold gpuFactor
    rw [if_neg (by decide), if_neg (by decide)]
  rw [hgpu]
  norm_num [pendingFactor, utilFactor, allocFactor, c8Queue, pyMin]

/-- C8 (amended): the queue score is 0 whenever the parsed max walltime is
non-null, non-zero, and less than the requirement's walltime in hours
(Python truthiness exempts an exactly-zero parsed walltime); in every
other case the returned score lies in (0, 1] after the `min(1.0, ...)`
clamp. -/
theorem C8_score_queue_amended (q : RQueue) (req : JobRequirements) (sys : RSystem) :
    (∀ w, recParseWalltime q.max_walltime = some w → w ≠ 0 →
      req.walltime_hours > w → score_queue q req sys = 0) ∧
    (¬ (∃ w, recParseWalltime q.max_walltime = some w ∧ w ≠ 0 ∧
          req.walltime_hours > w) →
      0 < score_queue q req sys ∧ score_queue q req sys ≤ 1) := by
  constructor
  · intro w hw hw0 hgt
    have hc : (decide (w ≠ 0) && decide (req.walltime_hours > w)) = true := by
      rw [Bool.and_eq_true, decide_eq_true_eq, decide_eq_true_eq]
      exact ⟨hw0, hgt⟩
    unfold score_queue
    rw [hw]
    dsimp only
    rw [if_pos hc]
  · intro hn
    have hcond : (match recParseWalltime q.max_walltime with
        | some w => decide (w ≠ 0) && decide (req.walltime_hours > w)
        | Option.none => false) = false := by
      rcases hmw : recParseWalltime q.max_walltime with _ | w
      · rfl
      · by_contra hb
        rw [Bool.not_eq_false, Bool.and_eq_true, decide_eq_true_eq,
          decide_eq_true_eq] at hb
        exact hn ⟨w, hmw, hb.1, hb.2⟩
    unfold score_queue
    simp only [hcond, Bool.false_eq_true, if_false]
    have hprod : 0 < (((1 * pendingFactor (safe_int q.jobs_pending))
        * utilFactor q.utilization_percent)
        * gpuFactor req.gpus (qtypeOf q))
        * allocFactor (get_allocation_remaining sys) :=
      mul_pos (mul_pos (mul_pos (mul_pos one_pos (pendingFactor_pos _))
        (utilFactor_pos _)) (gpuFactor_pos _ _)) (allocFactor_pos _)
    constructor
    · unfold pyMin
      split_ifs with h
      · norm_num
      · exact hprod
    · unfold pyMin
      split_ifs with h
      · norm_num
      · have h2 := not_le.mp h
        norm_num at h2 ⊢
        exact le_of_lt h2

/-- C8 witness: a rejected 25-hour job on a 24-hour queue, and the scored
counterexample queue landing inside (0, 1]. -/
theorem C8_score_queue_amended_witness :
    score_queue ⟨("24:00:00").toList, .int 0, Option.none, Option.none, Option.none⟩
      ⟨1, 25, Option.none, 0, Option.none, ("normal").toList⟩ c8Sys = 0 ∧
    (0 < score_queue c8Queue c8Req c8Sys ∧ score_queue c8Queue c8Req c8Sys ≤ 1) :=
  ⟨(C8_score_queue_amended _ _ _).1 24 recParse2400 (by norm_num) (by norm_num),
   (C8_score_queue_amended c8Queue c8Req c8Sys).2
     (fun ⟨w, hw, hw0, _⟩ =>
        have h0 : recParseWalltime c8Queue.max_walltime = some (0 : ℚ) := recParse000
        hw0 (Option.some.inj (hw.symm.trans h0)))⟩

/-! ## Mutual exclusion of concurrent refreshes (`src/server/workers.py`) -/

/-- The result of a non-blocking `refresh` that loses the lock race
(`workers.py` line 66). -/
def busyMsg : Str := ("Refresh already in progress.").toList

/-- The success message of a completed `refresh`. -/
def refreshedMsg : Str := ("Refreshed.").toList

/-- Interleaving state of two non-blocking `refresh(blocking=False)` calls
racing on one `DashboardState._refresh_lock`.  Each thread runs the
program of `refresh`: an atomic `acquire(blocking=False)` test-and-set
(program counter 0), the collection call under the lock (1), and the
release with result (2); 3 is finished.  `earlyA`/`earlyB` record whether
the thread's acquire attempt happened before any release — i.e. whether
the two calls actually overlap. -/
structure LockRace where
  lock : Bool
  pcA : Nat
  pcB : Nat
  resA : Option (Bool × Str)
  resB : Option (Bool × Str)
  collects : Nat
  releases : Nat
  earlyA : Bool
  earlyB : Bool

/-- Both calls pending, lock free. -/
def raceInit : LockRace :=
  ⟨false, 0, 0, Option.none, Option.none, 0, 0, true, true⟩

/-- One atomic step of thread A (`t = false`) or B (`t = true`):
`refresh` returns `(False, "Refresh already in progress.")` immediately
when the non-blocking acquire fails; otherwise it proceeds to collect and
finally releases in the `finally` block. -/
def raceStep (s : LockRace) (t : Bool) : LockRace :=
  if t = false then
    match s.pcA with
    | 0 =>
      if s.lock then
        {s with pcA := 3, resA := some (false, busyMsg),
                earlyA := decide (s.releases = 0)}
      else
        {s with lock := true, pcA := 1, earlyA := decide (s.releases = 0)}
    | 1 => {s with pcA := 2, collects := s.collects + 1}
    | 2 => {s with pcA := 3, lock := false, releases := s.releases + 1,
                   resA := some (true, refreshedMsg)}
    | _ => s
  else
    match s.pcB with
    | 0 =>
      if s.lock then
        {s with pcB := 3, resB := some (false, busyMsg),
                earlyB := decide (s.releases = 0)}
      else
        {s with lock := true, pcB := 1, earlyB := decide (s.releases = 0)}
    | 1 => {s with pcB := 2, collects := s.collects + 1}
    | 2 => {s with pcB := 3, lock := false, releases := s.releases + 1,
                   resB := some (true, refreshedMsg)}
    | _ => s

/-- Run a schedule (the list of thread choices) from the initial state. -/
def raceRun (sched : List Bool) : LockRace := sched.foldl raceStep raceInit

/-- C9: for every interleaving of two concurrent non-blocking `refresh`
calls on the same `DashboardState` — both calls complete and both acquire
attempts happen before either release, i.e. the calls overlap — exactly
one call invokes the collection function, and the other returns
immediately with `(false, "Refresh already in progress.")` while the
winner returns `(true, "Refreshed.")`. -/
theorem C9_refresh_mutual_exclusion :
    ∀ (b1 b2 b3 b4 b5 b6 : Bool),
      (raceRun [b1, b2, b3, b4, b5, b6]).resA.isSome = true →
      (raceRun [b1, b2, b3, b4, b5, b6]).resB.isSome = true →
      (raceRun [b1, b2, b3, b4, b5, b6]).earlyA = true →
      (raceRun [b1, b2, b3, b4, b5, b6]).earlyB = true →
      (raceRun [b1, b2, b3, b4, b5, b6]).collects = 1 ∧
      (((raceRun [b1, b2, b3, b4, b5, b6]).resA = some (false, busyMsg) ∧
        (raceRun [b1, b2, b3, b4, b5, b6]).resB = some (true, refreshedMsg)) ∨
       ((raceRun [b1, b2, b3, b4, b5, b6]).resB = some (false, busyMsg) ∧
        (raceRun [b1, b2, b3, b4, b5, b6]).resA = some (true, refreshedMsg))) := by
  decide

/-- C9 witness: the schedule where A acquires, B's non-blocking attempt
fails, and A finishes. -/
theorem C9_refresh_mutual_exclusion_witness :
    (raceRun [false, true, false, false, true, true]).collects = 1 ∧
    (((raceRun [false, true, false, false, true, true]).resA = some (false, busyMsg) ∧
      (raceRun [false, true, false, false, true, true]).resB = some (true, refreshedMsg)) ∨
     ((raceRun [false, true, false, false, true, true]).resB = some (false, busyMsg) ∧
      (raceRun [false, true, false, false, true, true]).resA = some (true, refreshedMsg))) :=
  C9_refresh_mutual_exclusion false true false false true true rfl rfl rfl rfl
